import Mathlib

/-!
Shallow embedding of the FixGPT tool-execution framework and bounded
investigation loop, with theorems settling the specification claims.

Sources embedded (file · symbol):
* `src/tools/base_tool.py` — `ToolMetadata`, `ToolResult`,
  `BaseTool.validate_inputs`, `ToolRegistry.execute_tool`
* `src/hands.py` — `run_hands_plan` (the step-bounded investigation loop)
* `src/brain.py` — `plan_next_step`
* `src/tools/k8s_logs_tool.py` — `K8sServiceHealthTool._assess_health`,
  `_filter_service_events`, `_assess_namespace_health` (overall-status block),
  `execute` (single-target path)
* `src/tools/connectivity_tool.py` — `ServiceConnectivityTool._assess_overall_status`
* `src/tools/git_tool.py` — `GitDeploymentAnalysisTool._assess_deployment_risk`,
  `_get_risk_recommendation`
* `src/tools/kubectl_tool.py`, `src/tools/prometheus_tool.py` — the external
  invocation sites (command vectors and timeout arguments).

Python dictionaries with a fixed key set become structures; optional keys
become `Option` fields with the source's `.get(k, default)` realised as
`Option.getD`; raised exceptions become `Except.error`; `Any`-typed payloads
become a type parameter.
-/

namespace FixGPT

/-- `needle` occurs as a contiguous run inside `hay` (character lists). -/
def listContainsSub (needle : List Char) : List Char → Bool
  | [] => needle.isEmpty
  | c :: rest => needle.isPrefixOf (c :: rest) || listContainsSub needle rest

/-- Python's `needle in hay` substring test. -/
def strContainsSub (needle hay : String) : Bool :=
  listContainsSub needle.data hay.data

/-- Python's `str.lower()`, character-wise (kept structural so that closed
evaluation proofs can reduce it). -/
def pyLower (s : String) : String :=
  String.mk (s.data.map Char.toLower)

/-- Python's `str.strip()`: drop leading and trailing whitespace (kept
structural so that closed evaluation proofs can reduce it). -/
def pyStrip (s : String) : String :=
  String.mk (((s.data.dropWhile Char.isWhitespace).reverse.dropWhile
    Char.isWhitespace).reverse)

/-! ## Probe contract (`src/tools/base_tool.py`) -/

/-- `ToolMetadata` dataclass (base_tool.py lines 6–13): the `inputs` dict
maps input-parameter name to human-readable constraint text. -/
structure ToolMetadata where
  id : String
  name : String
  description : String
  inputs : List (String × String)
  category : String

/-- `ToolResult` dataclass (base_tool.py lines 16–22). `data : Any` is a
type parameter; `None` is `Option.none`. -/
structure ToolResult (α : Type) where
  success : Bool
  data : Option α
  errorMessage : Option String
deriving DecidableEq

/-- A registered tool: its metadata together with its `execute` operation.
`execute` may raise (`Except.error` carries `str(e)`); it is otherwise
abstract, as each probe implementation differs. -/
structure Tool (α : Type) where
  metadata : ToolMetadata
  execute : List (String × String) → Except String (ToolResult α)

/-- The required-parameter computation inside `BaseTool.validate_inputs`
(base_tool.py lines 54–59): a parameter is required iff its constraint
text does not contain `"optional"` after lowercasing. -/
def requiredInputs (md : ToolMetadata) : List String :=
  (md.inputs.filter (fun p => !(strContainsSub "optional" (pyLower p.2)))).map (·.1)

/-- `BaseTool.validate_inputs` (base_tool.py lines 49–66): raises
`ValueError` when a required input is missing, otherwise returns `True`. -/
def validateInputs (md : ToolMetadata) (inputs : List (String × String)) : Except String Bool :=
  let provided := inputs.map (·.1)
  let missing := (requiredInputs md).filter (fun r => !(provided.contains r))
  if missing.isEmpty then
    Except.ok true
  else
    Except.error ("Missing required inputs: " ++ String.intercalate ", " missing)

/-- `ToolRegistry` (base_tool.py lines 69–90): a mapping from tool id to
tool instance. -/
structure ToolRegistry (α : Type) where
  tools : List (String × Tool α)

/-- `ToolRegistry.get_tool` (base_tool.py lines 79–81). -/
def ToolRegistry.getTool {α : Type} (reg : ToolRegistry α) (toolId : String) : Option (Tool α) :=
  (reg.tools.find? (fun p => p.1 == toolId)).map (·.2)

/-- Result of one dispatch, instrumented with whether the probe's
`execute` operation was reached. -/
structure DispatchResult (α : Type) where
  result : ToolResult α
  executeInvoked : Bool

/-- `ToolRegistry.execute_tool` (base_tool.py lines 92–110): unknown id
gives a failed result with a "not found" message; otherwise
`validate_inputs` then `execute` run inside `try`, and any raised fault
becomes a failed result carrying the exception text. -/
def ToolRegistry.executeTool {α : Type} (reg : ToolRegistry α) (toolId : String)
    (inputs : List (String × String)) : DispatchResult α :=
  match reg.getTool toolId with
  | none =>
    ⟨⟨false, none, some ("Tool '" ++ toolId ++ "' not found")⟩, false⟩
  | some tool =>
    match validateInputs tool.metadata inputs with
    | Except.error e => ⟨⟨false, none, some e⟩, false⟩
    | Except.ok _ =>
      match tool.execute inputs with
      | Except.ok r => ⟨r, true⟩
      | Except.error e => ⟨⟨false, none, some e⟩, true⟩

/-! ## Planning oracle interface (`src/brain.py`) -/

/-- `PlanStep` TypedDict (brain.py lines 19–22). -/
structure PlanStep where
  id : String
  tool : String
  inputs : List (String × String)

/-- The value `plan_next_step` hands back to the loop: either the literal
completion signal `"PLAN COMPLETE"` or a parsed step dict. -/
inductive PlanResponse where
  | planComplete
  | step (s : PlanStep)

/-- `plan_next_step` (brain.py lines 116–133), given the oracle's raw text
`content`. The external library calls are parameters: `extract` is the
code-fence group extraction via `re.search` (`none` when the regex does
not match, in which case `content` is used unchanged), and
`parse` is `json.loads` composed with the TypedDict reading (`none` when
it raises). If `"PLAN COMPLETE"` occurs in the text the completion signal
is returned; if parsing raises, the `except` branch also returns the
completion signal. -/
def planNextStep (extract : String → Option String) (parse : String → Option PlanStep)
    (content : String) : PlanResponse :=
  if strContainsSub "PLAN COMPLETE" content then
    PlanResponse.planComplete
  else
    let effective := (extract content).getD content
    match parse effective with
    | some s => PlanResponse.step s
    | none => PlanResponse.planComplete

/-! ## Investigation loop (`src/hands.py`, `run_hands_plan`) -/

/-- One `{"step": current_step, "output": output}` history entry
(hands.py line 516). -/
structure HistEntry where
  step : PlanStep
  output : String

/-- Observable outcome of one `run_hands_plan` run: the final history, the
final step counter, how many times the planning oracle was consulted, and
how many times the summarization oracle was invoked. -/
structure LoopRun where
  history : List HistEntry
  stepCount : Nat
  planCalls : Nat
  summaryCalls : Nat

/-- The `while True` loop of `run_hands_plan` (hands.py lines 485–523)
followed by the single `summarise_output` call (line 528). `oracle n` is
the `PlanResponse` produced by the `n`-th `plan_next_step` consultation;
`execStep` is the agent run producing a step's output. Each iteration
first checks `step_count >= max_steps` and breaks to summarization;
otherwise it consults the oracle, breaks on the completion signal, and
else increments the counter and appends one history entry. -/
def runLoopAux (maxSteps : Nat) (oracle : Nat → PlanResponse) (execStep : PlanStep → String)
    (stepCount planCalls : Nat) (history : List HistEntry) : LoopRun :=
  if stepCount ≥ maxSteps then
    ⟨history, stepCount, planCalls, 1⟩
  else
    match oracle planCalls with
    | PlanResponse.planComplete => ⟨history, stepCount, planCalls + 1, 1⟩
    | PlanResponse.step s =>
      runLoopAux maxSteps oracle execStep (stepCount + 1) (planCalls + 1)
        (history ++ [⟨s, execStep s⟩])
termination_by maxSteps - stepCount
decreasing_by omega

/-- `run_hands_plan` (hands.py lines 480–528): history, step counter and
plan start empty/zero; the loop runs, then summarization happens once. -/
def runHandsPlan (maxSteps : Nat) (oracle : Nat → PlanResponse)
    (execStep : PlanStep → String) : LoopRun :=
  runLoopAux maxSteps oracle execStep 0 0 []

/-! ## Kubernetes service health (`src/tools/k8s_logs_tool.py`) -/

/-- The `status` block of a deployment object; `.get("replicas", 0)` and
`.get("readyReplicas", 0)` read these with default `0`. -/
structure StatusBlock where
  replicas : Option Nat
  readyReplicas : Option Nat
deriving DecidableEq

/-- Result of `_run_kubectl_command` for the deployment query: either an
`{"error": ...}` dict (`hasError`) or parsed JSON in which a `status` key
may or may not be present. -/
structure DeploymentData where
  hasError : Bool
  status : Option StatusBlock
deriving DecidableEq

/-- Result of `_run_kubectl_command` for the pods query; only the presence
of an `"error"` key matters to `_assess_health`. -/
structure PodsData where
  hasError : Bool
deriving DecidableEq

/-- `K8sServiceHealthTool._assess_health` (k8s_logs_tool.py lines 336–353). -/
def assessHealth (deploymentData : DeploymentData) (podsData : PodsData) : String :=
  if deploymentData.hasError = true ∨ podsData.hasError = true then "unknown"
  else
    match deploymentData.status with
    | some st =>
      let replicas := st.replicas.getD 0
      let readyReplicas := st.readyReplicas.getD 0
      if readyReplicas = replicas ∧ replicas > 0 then "healthy"
      else if readyReplicas > 0 then "degraded"
      else "unhealthy"
    | none => "unknown"

/-- The overall-status determination at the end of
`K8sServiceHealthTool._assess_namespace_health` (k8s_logs_tool.py lines
487–493), as a function of the computed `failed_pods`,
`unhealthy_deployments` and `running_pods` counts. -/
def overallNamespaceStatus (failedPods unhealthyDeployments runningPods : Nat) : String :=
  if failedPods = 0 ∧ unhealthyDeployments = 0 then "healthy"
  else if runningPods > 0 then "degraded"
  else "critical"

/-! ## Event triage (`K8sServiceHealthTool._filter_service_events`) -/

/-- One raw event from `kubectl get events -o json`; every field is read
with `.get`, so each is optional. `involvedObjectName` is
`event.get("involvedObject", {}).get("name", "")` before the default. -/
structure K8sEvent where
  lastTimestamp : Option String
  type : Option String
  reason : Option String
  message : Option String
  involvedObjectName : Option String
deriving DecidableEq

/-- The `event_data` record built per selected event (k8s_logs_tool.py
lines 299–305). -/
structure EventData where
  time : Option String
  type : Option String
  reason : Option String
  message : Option String
  object : String
deriving DecidableEq

/-- `event.get("involvedObject", {}).get("name", "")`. -/
def eventObjName (e : K8sEvent) : String :=
  e.involvedObjectName.getD ""

def eventDataOf (e : K8sEvent) : EventData :=
  ⟨e.lastTimestamp, e.type, e.reason, e.message, eventObjName e⟩

/-- The per-event selection test `service_name in event_obj_name or
event_obj_name == ""` (k8s_logs_tool.py line 298). -/
def eventSelected (serviceName : String) (e : K8sEvent) : Bool :=
  strContainsSub serviceName (eventObjName e) || eventObjName e == ""

/-- The five critical-issue buckets (k8s_logs_tool.py lines 287–293). -/
inductive Bucket where
  | oomKilled
  | probeFailures
  | imagePullErrors
  | networkingIssues
  | restartLoops
deriving DecidableEq

/-- The ordered `elif` chain classifying one event (k8s_logs_tool.py lines
308–323): only `"Warning"`-type events are eligible; the first matching
bucket wins; matching is on the lowercased reason/message with the exact
source fragments. Returns `none` when the event lands in no bucket. -/
def classifyBucket (e : K8sEvent) : Option Bucket :=
  let reason := pyLower (e.reason.getD "")
  let message := pyLower (e.message.getD "")
  let eventType := e.type.getD ""
  if eventType = "Warning" then
    if strContainsSub "oomkilled" reason then some Bucket.oomKilled
    else if strContainsSub "probe failed" message || strContainsSub "unhealthy" reason then
      some Bucket.probeFailures
    else if strContainsSub "imagepull" reason || strContainsSub "errimagepull" reason then
      some Bucket.imagePullErrors
    else if strContainsSub "connection refused" message || strContainsSub "timeout" message
        || strContainsSub "network" message || strContainsSub "dns" message then
      some Bucket.networkingIssues
    else if strContainsSub "backoff" reason || strContainsSub "crashloop" reason then
      some Bucket.restartLoops
    else none
  else none

/-- The five per-bucket event lists (`critical_issues`). -/
structure CriticalIssues where
  oomKilled : List EventData
  probeFailures : List EventData
  imagePullErrors : List EventData
  networkingIssues : List EventData
  restartLoops : List EventData
deriving DecidableEq

/-- The `critical_summary` dict (k8s_logs_tool.py lines 328–333). Its keys
are exactly `total_critical`, `has_oom_issues`, `has_probe_issues` and
`has_network_issues`. -/
structure CriticalSummary where
  totalCritical : Nat
  hasOomIssues : Bool
  hasProbeIssues : Bool
  hasNetworkIssues : Bool
deriving DecidableEq

/-- The has-issue boolean the `critical_summary` dict carries for a given
bucket, `none` when the dict has no key for that bucket (the source emits
booleans only for the oom, probe-failure and networking buckets). -/
def summaryHasIssue (s : CriticalSummary) : Bucket → Option Bool
  | Bucket.oomKilled => some s.hasOomIssues
  | Bucket.probeFailures => some s.hasProbeIssues
  | Bucket.networkingIssues => some s.hasNetworkIssues
  | Bucket.imagePullErrors => none
  | Bucket.restartLoops => none

/-- The dict returned by `_filter_service_events` on its main path. -/
structure FilteredEvents where
  events : List EventData
  criticalIssues : CriticalIssues
  criticalSummary : CriticalSummary
deriving DecidableEq

/-- The events collected into bucket `b`: the loop appends `event_data` to
`critical_issues[b]` exactly for the selected events the `elif` chain
sends to `b`, in traversal order. -/
def bucketEvents (selected : List K8sEvent) (b : Bucket) : List EventData :=
  (selected.filter (fun e => classifyBucket e == some b)).map eventDataOf

/-- The main path of `_filter_service_events` (k8s_logs_tool.py lines
286–334) over the parsed `items` list: keep the last 20 events
(`[-20:]`), select those naming the service (or with empty object name),
record each selected event, bucket the `Warning` ones by the `elif`
chain, and build the `critical_summary`. -/
def filterEventItems (items : List K8sEvent) (serviceName : String) : FilteredEvents :=
  let recent := items.drop (items.length - 20)
  let selected := recent.filter (eventSelected serviceName)
  let ci : CriticalIssues :=
    ⟨bucketEvents selected Bucket.oomKilled,
     bucketEvents selected Bucket.probeFailures,
     bucketEvents selected Bucket.imagePullErrors,
     bucketEvents selected Bucket.networkingIssues,
     bucketEvents selected Bucket.restartLoops⟩
  { events := selected.map eventDataOf
    criticalIssues := ci
    criticalSummary :=
      { totalCritical := ci.oomKilled.length + ci.probeFailures.length
          + ci.imagePullErrors.length + ci.networkingIssues.length + ci.restartLoops.length
        hasOomIssues := ci.oomKilled.length > 0
        hasProbeIssues := ci.probeFailures.length > 0
        hasNetworkIssues := ci.networkingIssues.length > 0 } }

/-- Result of `_run_kubectl_command` for the events query: an error dict or
parsed JSON in which an `items` key may be present. -/
structure EventsData where
  hasError : Bool
  items : Option (List K8sEvent)
deriving DecidableEq

/-- Return value of `_filter_service_events`: the guard path returns the
literal `{"events": [], "critical_issues": {}}` dict (no buckets, no
summary), the main path the full dict. -/
inductive FilterEventsResult where
  | emptyResult
  | full (r : FilteredEvents)
deriving DecidableEq

/-- `_filter_service_events` (k8s_logs_tool.py lines 281–334) including
the `"error" in events_data or "items" not in events_data` guard. -/
def filterServiceEvents (eventsData : EventsData) (serviceName : String) : FilterEventsResult :=
  if eventsData.hasError = true ∨ eventsData.items = none then
    FilterEventsResult.emptyResult
  else
    FilterEventsResult.full (filterEventItems (eventsData.items.getD []) serviceName)

/-- The `health_data` dict built by `K8sServiceHealthTool.execute`
(k8s_logs_tool.py lines 239–246). -/
structure HealthData where
  serviceName : String
  nspace : String
  deploymentStatus : DeploymentData
  podsStatus : PodsData
  recentEvents : FilterEventsResult
  overallHealth : String
deriving DecidableEq

/-- `K8sServiceHealthTool.execute` (k8s_logs_tool.py lines 200–254) with
the three kubectl query results supplied as data. `namespaceCheck` stands
for the `_check_namespace_health` result used when the service name is
empty or whitespace (`not service_name or service_name.strip() == ""`);
on the single-target path the probe always returns `success := true`
carrying the assembled `health_data`. -/
def k8sServiceHealthExecute (namespaceCheck : ToolResult HealthData)
    (serviceName nspace : String) (deploymentResult : DeploymentData)
    (podsResult : PodsData) (eventsResult : EventsData) : ToolResult HealthData :=
  if serviceName = "" ∨ pyStrip serviceName = "" then namespaceCheck
  else
    { success := true
      data := some
        { serviceName := serviceName
          nspace := nspace
          deploymentStatus := deploymentResult
          podsStatus := podsResult
          recentEvents := filterServiceEvents eventsResult serviceName
          overallHealth := assessHealth deploymentResult podsResult }
      errorMessage := none }

/-! ## Connectivity assessment (`src/tools/connectivity_tool.py`) -/

/-- The `status` value of one connectivity sub-test: `"success"`,
`"failed"` (non-zero exit) or `"error"` (raised exception). -/
inductive TestStatus where
  | success
  | failed
  | error
deriving DecidableEq

/-- The `results["tests"]` dict assembled by
`ServiceConnectivityTool.execute` (connectivity_tool.py lines 52–77):
always `dns_resolution`, `port_connectivity` and `service_discovery`, and
`http_health` iff the protocol is http or https. -/
structure ConnTests where
  dnsResolution : TestStatus
  portConnectivity : TestStatus
  httpHealth : Option TestStatus
  serviceDiscovery : TestStatus
deriving DecidableEq

/-- The `tests` dict as the (name, status) pairs `_assess_overall_status`
iterates over, in insertion order. -/
def testsList (t : ConnTests) : List (String × TestStatus) :=
  [("dns_resolution", t.dnsResolution), ("port_connectivity", t.portConnectivity)]
    ++ (match t.httpHealth with
        | some s => [("http_health", s)]
        | none => [])
    ++ [("service_discovery", t.serviceDiscovery)]

/-- The dict returned by `_assess_overall_status`. The Python
`success_rate` float is embedded as an exact rational. -/
structure OverallAssessment where
  status : String
  successRate : ℚ
  passedTests : Nat
  totalTests : Nat
  criticalFailures : List String
deriving DecidableEq

/-- `ServiceConnectivityTool._assess_overall_status` (connectivity_tool.py
lines 245–273): count passed tests, collect critical failures (a test
with status `"failed"` whose name is `dns_resolution` or
`service_discovery`), compute the percentage success rate, and pick the
verdict. -/
def assessOverallStatus (tests : List (String × TestStatus)) : OverallAssessment :=
  let passed := (tests.filter (fun p => p.2 == TestStatus.success)).length
  let total := tests.length
  let criticalFailures :=
    (tests.filter (fun p =>
      p.2 == TestStatus.failed && (p.1 == "dns_resolution" || p.1 == "service_discovery"))).map (·.1)
  let successRate : ℚ := if total > 0 then ((passed : ℚ) / (total : ℚ)) * 100 else 0
  let status :=
    if 80 ≤ successRate ∧ criticalFailures = [] then "healthy"
    else if 50 ≤ successRate then "degraded"
    else "unhealthy"
  ⟨status, successRate, passed, total, criticalFailures⟩

/-! ## Deployment-risk scoring (`src/tools/git_tool.py`) -/

/-- The dict returned by `_assess_deployment_risk`. -/
structure RiskAssessment where
  level : String
  factors : List String
  recommendation : String
deriving DecidableEq

/-- `GitDeploymentAnalysisTool._get_risk_recommendation` (git_tool.py
lines 553–560). -/
def getRiskRecommendation (riskLevel : String) (deploymentCount : Nat) : String :=
  if riskLevel = "high" then
    "High deployment activity detected. Consider investigating recent changes for correlation with production issues."
  else if riskLevel = "medium" then
    "Moderate deployment activity. Review recent deployments if issues coincide with deployment times."
  else
    "Low deployment risk. Recent code changes less likely to be the primary cause."

/-- `GitDeploymentAnalysisTool._assess_deployment_risk` (git_tool.py lines
525–551): `risk_level` starts `"low"`; `len(deployment_commits) > 5` sets
it to `"medium"`, then `> 0` only appends a factor, then `> 3` sets it to
`"high"` — the assignments are sequential, so the `> 3` check overrides
the `> 5` one. `total_commits` is read from the analysis dict but unused
afterwards. -/
def assessDeploymentRisk (deploymentCommits : List String) (totalCommits : Nat) : RiskAssessment :=
  let n := deploymentCommits.length
  let state1 : List String × String :=
    if n > 5 then (["High deployment frequency detected"], "medium") else ([], "low")
  let factors2 :=
    if n > 0 then
      state1.1 ++ ["Recent deployments found - potential correlation with issues"]
    else state1.1
  let state3 : List String × String :=
    if n > 3 then
      (factors2 ++ ["Multiple recent deployments - increased change risk"], "high")
    else (factors2, state1.2)
  { level := state3.2
    factors := state3.1
    recommendation := getRiskRecommendation state3.2 n }

/-! ## External invocation sites and their timeouts -/

/-- An external subprocess invocation as built by a probe: the argument
vector and the timeout (in seconds) under which the await of the spawned
process is placed, `none` when the code awaits `communicate()` with no
timeout at all. -/
structure SubprocessInvocation where
  argv : List String
  timeoutSeconds : Option Nat
deriving DecidableEq

/-- An HTTP API invocation issued by a probe, with the client timeout
passed to the request, `none` when absent. -/
structure HttpInvocation where
  url : String
  timeoutSeconds : Option Nat
deriving DecidableEq

/-- Helper for `splitWhitespace`: walk the characters, accumulating the
current word (reversed). -/
def splitWsAux : List Char → List Char → List String
  | [], acc => if acc.isEmpty then [] else [String.mk acc.reverse]
  | c :: cs, acc =>
    if c.isWhitespace then
      (if acc.isEmpty then [] else [String.mk acc.reverse]) ++ splitWsAux cs []
    else
      splitWsAux cs (c :: acc)

/-- Python `str.split()` on a command string (split on whitespace runs,
empty fragments dropped). -/
def splitWhitespace (s : String) : List String :=
  splitWsAux s.data []

/-- The `kubectl_cmd` vector built by `KubectlTool.execute`
(kubectl_tool.py lines 48–61). -/
def buildKubectlCmd (command nspace outputFormat additionalFlags : String) : List String :=
  let cmd0 := ["kubectl"] ++ splitWhitespace command
  let cmd1 :=
    if !(strContainsSub "--namespace" command) && !(strContainsSub "-n" command)
        && nspace != "default" then
      cmd0 ++ ["--namespace", nspace]
    else cmd0
  let cmd2 :=
    if (outputFormat == "json" || outputFormat == "yaml") && !(strContainsSub "-o" command) then
      cmd1 ++ ["-o", outputFormat]
    else cmd1
  if additionalFlags != "" then cmd2 ++ splitWhitespace additionalFlags else cmd2

/-- The subprocess invocation issued by `KubectlTool.execute`
(kubectl_tool.py lines 63–70): `asyncio.create_subprocess_exec` awaited
through `process.communicate()` with no `asyncio.wait_for` wrapper and no
timeout argument anywhere. -/
def kubectlExecuteSubprocess (command nspace outputFormat additionalFlags : String) :
    SubprocessInvocation :=
  { argv := buildKubectlCmd command nspace outputFormat additionalFlags
    timeoutSeconds := none }

/-- The subprocess invocation issued by
`ServiceConnectivityTool._test_dns_resolution` (connectivity_tool.py
lines 97–110): the `kubectl run ... nslookup` command awaited through
`communicate()` with no timeout. -/
def dnsResolutionSubprocess (serviceName nspace : String) : SubprocessInvocation :=
  { argv := ["kubectl", "run", "connectivity-test", "--rm", "-i", "--restart=Never",
      "--image=nicolaka/netshoot", "--namespace", nspace,
      "--", "nslookup", serviceName ++ "." ++ nspace ++ ".svc.cluster.local"]
    timeoutSeconds := none }

/-- The HTTP invocation issued by `PrometheusQueryTool.execute`
(prometheus_tool.py lines 109–115): `session.get` with
`timeout=aiohttp.ClientTimeout(total=60)`. -/
def prometheusQueryHttp (url : String) : HttpInvocation :=
  { url := url, timeoutSeconds := some 60 }

/-! ## Helper lemmas -/

theorem listContainsSub_append_left (n b : List Char) (h : listContainsSub n b = true) :
    ∀ a : List Char, listContainsSub n (a ++ b) = true := by
  intro a
  induction a with
  | nil => simpa using h
  | cons c a ih =>
    simp only [List.cons_append, listContainsSub, Bool.or_eq_true]
    exact Or.inr ih

/-! ## Sample instances used by witnesses -/

/-- A metadata sample with one required and one optional parameter,
modelled on the `k8s_logs` descriptor. -/
def sampleMetadata : ToolMetadata :=
  { id := "k8s_logs"
    name := "K8s Logs Query"
    description := "Query logs from Kubernetes services using kubectl."
    inputs := [("service_name", "string - Name of the Kubernetes service/deployment"),
               ("log_level", "string - Log level filter (optional)")]
    category := "logs" }

/-- A sample probe over `sampleMetadata` whose execution succeeds. -/
def sampleTool : Tool Unit :=
  { metadata := sampleMetadata
    execute := fun _ => Except.ok ⟨true, some (), none⟩ }

/-- A sample probe with no required inputs whose execution raises. -/
def faultyTool : Tool Unit :=
  { metadata := { id := "faulty", name := "Faulty", description := "Always raises.",
                  inputs := [], category := "health" }
    execute := fun _ => Except.error "boom" }

/-- A sample registry holding both probes. -/
def sampleRegistry : ToolRegistry Unit :=
  ⟨[("k8s_logs", sampleTool), ("faulty", faultyTool)]⟩

/-! ## Claims -/

/-- C1: for every registered probe and input mapping, if any required
parameter (one whose descriptor constraint text does not contain
"optional" case-insensitively) is absent from the inputs, then dispatch
via `ToolRegistry.execute_tool` returns a failed `ToolResult` and the
probe's `execute` is never invoked; the required-parameter computation is
a pure function of the descriptor's input table and the input mapping. -/
theorem executeTool_missing_required {α : Type} (reg : ToolRegistry α)
    (toolId : String) (tool : Tool α) (inputs : List (String × String))
    (hget : reg.getTool toolId = some tool)
    (r : String) (hreq : r ∈ requiredInputs tool.metadata)
    (habs : r ∉ inputs.map Prod.fst) :
    (reg.executeTool toolId inputs).result.success = false ∧
      (reg.executeTool toolId inputs).executeInvoked = false ∧
      (∀ md md' : ToolMetadata, md.inputs = md'.inputs →
        requiredInputs md = requiredInputs md') := by
  have hval : ∃ e, validateInputs tool.metadata inputs = Except.error e := by
    unfold validateInputs
    have hmem : r ∈ (requiredInputs tool.metadata).filter
        (fun x => !((inputs.map Prod.fst).contains x)) := by
      rw [List.mem_filter]
      refine ⟨hreq, ?_⟩
      cases hc : (inputs.map Prod.fst).elem r with
      | false => show (!(inputs.map Prod.fst).elem r) = true; rw [hc]; rfl
      | true => exact absurd (List.elem_iff.mp hc) habs
    have hne : ((requiredInputs tool.metadata).filter
        (fun x => !((inputs.map Prod.fst).contains x))).isEmpty ≠ true := by
      intro h
      rw [List.isEmpty_iff] at h
      rw [h] at hmem
      exact (List.not_mem_nil r) hmem
    exact ⟨_, if_neg hne⟩
  obtain ⟨e, he⟩ := hval
  refine ⟨?_, ?_, ?_⟩
  · simp only [ToolRegistry.executeTool, hget, he]
  · simp only [ToolRegistry.executeTool, hget, he]
  · intro md md' h
    unfold requiredInputs
    rw [h]

/-- C1 witness: dispatching the sample probe with empty inputs (missing
the required `service_name`) fails without reaching `execute`. -/
theorem executeTool_missing_required_witness :
    (sampleRegistry.executeTool "k8s_logs" []).result.success = false ∧
      (sampleRegistry.executeTool "k8s_logs" []).executeInvoked = false := by
  have h := executeTool_missing_required sampleRegistry "k8s_logs" sampleTool []
    (by rfl) "service_name" (by decide) (by simp)
  exact ⟨h.1, h.2.1⟩

/-- C2: `ToolRegistry.execute_tool` is total (it returns a `ToolResult`
for every id and input mapping by construction); an unknown id yields a
failed result whose error message contains "not found"; a fault raised
during validation or during execution is converted into a failed result
carrying the exception text. -/
theorem executeTool_total {α : Type} (reg : ToolRegistry α)
    (toolId : String) (inputs : List (String × String)) :
    (reg.getTool toolId = none →
      (reg.executeTool toolId inputs).result.success = false ∧
      ∃ msg, (reg.executeTool toolId inputs).result.errorMessage = some msg ∧
        strContainsSub "not found" msg = true) ∧
    (∀ tool e, reg.getTool toolId = some tool →
      validateInputs tool.metadata inputs = Except.error e →
      (reg.executeTool toolId inputs).result = ⟨false, none, some e⟩ ∧
      (reg.executeTool toolId inputs).executeInvoked = false) ∧
    (∀ tool b e, reg.getTool toolId = some tool →
      validateInputs tool.metadata inputs = Except.ok b →
      tool.execute inputs = Except.error e →
      (reg.executeTool toolId inputs).result = ⟨false, none, some e⟩) := by
  refine ⟨?_, ?_, ?_⟩
  · intro hnone
    constructor
    · simp only [ToolRegistry.executeTool, hnone]
    · refine ⟨"Tool '" ++ toolId ++ "' not found", ?_, ?_⟩
      · simp only [ToolRegistry.executeTool, hnone]
      · unfold strContainsSub
        have hbase : listContainsSub "not found".data "' not found".data = true := by
          decide
        rw [String.data_append]
        exact listContainsSub_append_left "not found".data "' not found".data hbase
          ("Tool '" ++ toolId).data
  · intro tool e hget hval
    constructor <;> simp only [ToolRegistry.executeTool, hget, hval]
  · intro tool b e hget hval hexec
    simp only [ToolRegistry.executeTool, hget, hval, hexec]

/-- C2 witness: an unknown id and a raising probe, both dispatched on the
sample registry. -/
theorem executeTool_total_witness :
    ((sampleRegistry.executeTool "no_such_tool" []).result.success = false ∧
      ∃ msg, (sampleRegistry.executeTool "no_such_tool" []).result.errorMessage = some msg ∧
        strContainsSub "not found" msg = true) ∧
    (sampleRegistry.executeTool "faulty" []).result = ⟨false, none, some "boom"⟩ := by
  refine ⟨(executeTool_total sampleRegistry "no_such_tool" []).1 (by rfl), ?_⟩
  exact (executeTool_total sampleRegistry "faulty" []).2.2 faultyTool true "boom"
    (by rfl) (by rfl) (by rfl)

/-- Loop invariant for `runLoopAux`, by induction on the remaining step
budget: the final step counter stays within the budget, history grows by
exactly one entry per executed step, at most one oracle consultation
happens per remaining budget unit, and summarization happens once. -/
theorem runLoopAux_spec (maxSteps : Nat) (oracle : Nat → PlanResponse)
    (execStep : PlanStep → String) :
    ∀ (fuel stepCount planCalls : Nat) (history : List HistEntry),
      maxSteps - stepCount ≤ fuel → stepCount ≤ maxSteps →
      (runLoopAux maxSteps oracle execStep stepCount planCalls history).stepCount ≤ maxSteps ∧
      (runLoopAux maxSteps oracle execStep stepCount planCalls history).history.length
          + stepCount
        = history.length
          + (runLoopAux maxSteps oracle execStep stepCount planCalls history).stepCount ∧
      (runLoopAux maxSteps oracle execStep stepCount planCalls history).planCalls
        ≤ planCalls + (maxSteps - stepCount) ∧
      (runLoopAux maxSteps oracle execStep stepCount planCalls history).summaryCalls = 1 := by
  intro fuel
  induction fuel with
  | zero =>
    intro stepCount planCalls history hfuel hsc
    have hge : stepCount ≥ maxSteps := by omega
    rw [runLoopAux, if_pos hge]
    dsimp only
    exact ⟨hsc, by omega, by omega, rfl⟩
  | succ fuel ih =>
    intro stepCount planCalls history hfuel hsc
    rw [runLoopAux]
    by_cases hge : stepCount ≥ maxSteps
    · rw [if_pos hge]
      dsimp only
      exact ⟨hsc, by omega, by omega, rfl⟩
    · rw [if_neg hge]
      cases horacle : oracle planCalls with
      | planComplete =>
        dsimp only
        exact ⟨hsc, by omega, by omega, rfl⟩
      | step s =>
        dsimp only
        have h1 : maxSteps - (stepCount + 1) ≤ fuel := by omega
        have h2 : stepCount + 1 ≤ maxSteps := by omega
        obtain ⟨ha, hb, hc, hd⟩ := ih (stepCount + 1) (planCalls + 1)
          (history ++ [⟨s, execStep s⟩]) h1 h2
        refine ⟨ha, ?_, ?_, hd⟩
        · simp only [List.length_append, List.length_cons, List.length_nil] at hb
          omega
        · omega

/-- C3: the investigation loop executes at most `max_steps` probe steps —
history gains exactly one entry per executed step, so the final history
length equals the final step counter and is at most `max_steps` — the
planning oracle is consulted at most `max_steps` times and, once the step
counter has reached `max_steps`, the loop returns to summarization
without consulting it again; the summarization oracle is invoked exactly
once per run. -/
theorem run_hands_plan_bounded (maxSteps : Nat) (oracle : Nat → PlanResponse)
    (execStep : PlanStep → String) :
    (runHandsPlan maxSteps oracle execStep).history.length ≤ maxSteps ∧
    (runHandsPlan maxSteps oracle execStep).history.length
      = (runHandsPlan maxSteps oracle execStep).stepCount ∧
    (runHandsPlan maxSteps oracle execStep).planCalls ≤ maxSteps ∧
    (runHandsPlan maxSteps oracle execStep).summaryCalls = 1 ∧
    (∀ (sc pc : Nat) (h : List HistEntry), maxSteps ≤ sc →
      runLoopAux maxSteps oracle execStep sc pc h = ⟨h, sc, pc, 1⟩) := by
  obtain ⟨ha, hb, hc, hd⟩ := runLoopAux_spec maxSteps oracle execStep maxSteps 0 0 []
    (by omega) (by omega)
  refine ⟨?_, ?_, ?_, hd, ?_⟩
  · unfold runHandsPlan
    simp only [List.length_nil] at hb
    omega
  · unfold runHandsPlan
    simp only [List.length_nil] at hb
    omega
  · unfold runHandsPlan
    omega
  · intro sc pc h hge
    rw [runLoopAux, if_pos hge]

/-- A planning oracle that always returns a step descriptor (used to
witness C3 with the budget as the only stopping force). -/
def relentlessOracle : Nat → PlanResponse :=
  fun _ => PlanResponse.step ⟨"step1", "kubectl_command", [("command", "get pods")]⟩

/-- A trivial step executor for witnesses. -/
def constExec : PlanStep → String :=
  fun _ => "output"

/-- C3 witness: with budget 2 and an oracle that never stops, the run
executes exactly 2 steps and summarizes once; at a state whose counter
already equals the budget the loop returns directly. -/
theorem run_hands_plan_bounded_witness :
    (runHandsPlan 2 relentlessOracle constExec).history.length ≤ 2 ∧
      (runHandsPlan 2 relentlessOracle constExec).summaryCalls = 1 ∧
      runLoopAux 2 relentlessOracle constExec 2 0 [] = ⟨[], 2, 0, 1⟩ := by
  have h := run_hands_plan_bounded 2 relentlessOracle constExec
  exact ⟨h.1, h.2.2.2.1, h.2.2.2.2 2 0 [] (by omega)⟩

/-- C8: when the oracle's text neither contains the completion signal nor
parses as a JSON step descriptor, `plan_next_step` returns the completion
signal instead of raising, and on that response the loop ends its
iteration and proceeds to the single summarization. -/
theorem plan_unparseable_completes (extract : String → Option String)
    (parse : String → Option PlanStep) (content : String)
    (hsig : strContainsSub "PLAN COMPLETE" content = false)
    (hparse : parse ((extract content).getD content) = none) :
    planNextStep extract parse content = PlanResponse.planComplete ∧
    (∀ (maxSteps : Nat) (oracle : Nat → PlanResponse) (execStep : PlanStep → String)
        (sc pc : Nat) (h : List HistEntry),
      sc < maxSteps → oracle pc = PlanResponse.planComplete →
      runLoopAux maxSteps oracle execStep sc pc h = ⟨h, sc, pc + 1, 1⟩) := by
  constructor
  · simp only [planNextStep, hsig, Bool.false_eq_true, if_false, hparse]
  · intro maxSteps oracle execStep sc pc h hlt horacle
    rw [runLoopAux, if_neg (by omega), horacle]

/-- An oracle answering the completion signal immediately (C8 witness). -/
def completeOracle : Nat → PlanResponse :=
  fun _ => PlanResponse.planComplete

/-- C8 witness: a garbage oracle text with failing JSON parse yields the
completion signal, and the loop summarizes with an unchanged history. -/
theorem plan_unparseable_completes_witness :
    planNextStep (fun _ => none) (fun _ => none) "I could not decide" =
      PlanResponse.planComplete ∧
    runLoopAux 3 completeOracle constExec 0 0 [] = ⟨[], 0, 1, 1⟩ := by
  have h := plan_unparseable_completes (fun _ => none) (fun _ => none)
    "I could not decide" (by decide) (by rfl)
  exact ⟨h.1, h.2 3 completeOracle constExec 0 0 [] (by omega) (by rfl)⟩

/-- C4 counterexample: at desired replicas `d = 1` and ready replicas
`r = 2` (a transient rollout state) the code returns `"degraded"`, so the
claim's characterizations "`r ≥ d` together with `d > 0` holds iff the
verdict is healthy" and "degraded iff `0 < r < d`" are both false as
stated. -/
theorem assessHealth_claim_counterexample :
    assessHealth ⟨false, some ⟨some 1, some 2⟩⟩ ⟨false⟩ = "degraded" ∧
    ¬(assessHealth ⟨false, some ⟨some 1, some 2⟩⟩ ⟨false⟩ = "healthy" ↔ (2 ≥ 1 ∧ 1 > 0)) ∧
    ¬(assessHealth ⟨false, some ⟨some 1, some 2⟩⟩ ⟨false⟩ = "degraded" ↔ (0 < 2 ∧ 2 < 1)) := by
  refine ⟨by decide, by decide, by decide⟩

/-- C4 (amended): for deployment status with desired `d` and ready `r`,
the verdict is healthy iff `r = d ∧ d > 0` (equality, not `r ≥ d`),
degraded iff `r > 0` and not healthy (which for `r ≤ d` is exactly
`0 < r < d`), and unhealthy otherwise, so `r = 0` forces unhealthy; for
the whole-namespace check the overall status is healthy iff there are
zero failed pods and zero unhealthy deployments, and otherwise degraded
iff at least one pod is running, else critical. -/
theorem assessHealth_characterization (d r failedPods unhealthyDeployments runningPods : Nat) :
    (assessHealth ⟨false, some ⟨some d, some r⟩⟩ ⟨false⟩ = "healthy" ↔ r = d ∧ d > 0) ∧
    (assessHealth ⟨false, some ⟨some d, some r⟩⟩ ⟨false⟩ = "degraded" ↔
      r > 0 ∧ ¬(r = d ∧ d > 0)) ∧
    (assessHealth ⟨false, some ⟨some d, some r⟩⟩ ⟨false⟩ = "unhealthy" ↔ r = 0) ∧
    (r ≤ d →
      (assessHealth ⟨false, some ⟨some d, some r⟩⟩ ⟨false⟩ = "degraded" ↔ 0 < r ∧ r < d)) ∧
    (overallNamespaceStatus failedPods unhealthyDeployments runningPods = "healthy" ↔
      failedPods = 0 ∧ unhealthyDeployments = 0) ∧
    (¬(failedPods = 0 ∧ unhealthyDeployments = 0) →
      (overallNamespaceStatus failedPods unhealthyDeployments runningPods = "degraded" ↔
        runningPods > 0) ∧
      (runningPods = 0 →
        overallNamespaceStatus failedPods unhealthyDeployments runningPods = "critical")) := by
  have hne1 : ("healthy" : String) ≠ "degraded" := by decide
  have hne2 : ("healthy" : String) ≠ "unhealthy" := by decide
  have hne3 : ("degraded" : String) ≠ "unhealthy" := by decide
  have hne4 : ("healthy" : String) ≠ "critical" := by decide
  have hne5 : ("degraded" : String) ≠ "critical" := by decide
  have hmain : assessHealth ⟨false, some ⟨some d, some r⟩⟩ ⟨false⟩ =
      (if r = d ∧ d > 0 then "healthy" else if r > 0 then "degraded" else "unhealthy") := by
    simp [assessHealth]
  rw [hmain]
  unfold overallNamespaceStatus
  by_cases h1 : r = d ∧ d > 0 <;> by_cases h2 : r > 0 <;>
    by_cases h3 : failedPods = 0 ∧ unhealthyDeployments = 0 <;>
    by_cases h4 : runningPods > 0 <;>
    simp only [h1, h2, h3, h4, if_pos, if_neg, if_true, if_false, not_true, not_false_iff] <;>
    simp_all <;> omega

/-- C4 witness: at `d = 3, r = 2` the amended characterization gives the
degraded verdict, and a namespace with one failed pod and one running pod
is degraded. -/
theorem assessHealth_characterization_witness :
    (assessHealth ⟨false, some ⟨some 3, some 2⟩⟩ ⟨false⟩ = "degraded") ∧
    overallNamespaceStatus 1 0 2 = "degraded" := by
  have h := assessHealth_characterization 3 2 1 0 2
  exact ⟨(h.2.2.2.1 (by omega)).mpr (by omega),
    ((h.2.2.2.2.2 (by omega)).1).mpr (by omega)⟩

/-- C10: on the single-target path, if the deployment query or the pods
query errored, or the deployment data has no status block, the overall
health verdict is the string "unknown" — outside the spec's verdict set —
and the probe still returns a `ToolResult` with `success = true` carrying
that verdict. -/
theorem k8s_health_unknown_success (namespaceCheck : ToolResult HealthData)
    (serviceName nspace : String) (dep : DeploymentData) (pods : PodsData)
    (ev : EventsData)
    (hname : ¬(serviceName = "" ∨ pyStrip serviceName = ""))
    (hbad : dep.hasError = true ∨ pods.hasError = true ∨ dep.status = none) :
    (k8sServiceHealthExecute namespaceCheck serviceName nspace dep pods ev).success = true ∧
    ∃ hd, (k8sServiceHealthExecute namespaceCheck serviceName nspace dep pods ev).data
        = some hd ∧
      hd.overallHealth = "unknown" ∧
      hd.overallHealth ∉ (["healthy", "degraded", "unhealthy", "critical"] : List String) := by
  have hunknown : assessHealth dep pods = "unknown" := by
    rcases hbad with h | h | h
    · simp [assessHealth, h]
    · simp [assessHealth, h]
    · unfold assessHealth
      rw [h]
      split <;> rfl
  rw [k8sServiceHealthExecute, if_neg hname]
  refine ⟨rfl, ⟨_, rfl, ?_, ?_⟩⟩
  · exact hunknown
  · simp only [hunknown]
    decide

/-- C10 witness: a deployment query error on service "cart" yields
verdict "unknown" inside a successful result. -/
theorem k8s_health_unknown_success_witness :
    (k8sServiceHealthExecute ⟨false, none, none⟩ "cart" "default" ⟨true, none⟩ ⟨false⟩
        ⟨false, none⟩).success = true ∧
    ∃ hd, (k8sServiceHealthExecute ⟨false, none, none⟩ "cart" "default" ⟨true, none⟩ ⟨false⟩
        ⟨false, none⟩).data = some hd ∧
      hd.overallHealth = "unknown" ∧
      hd.overallHealth ∉ (["healthy", "degraded", "unhealthy", "critical"] : List String) :=
  k8s_health_unknown_success ⟨false, none, none⟩ "cart" "default" ⟨true, none⟩ ⟨false⟩
    ⟨false, none⟩ (by decide) (Or.inl rfl)

set_option maxHeartbeats 2000000 in
/-- C5: for every connectivity-test result set, the verdict is healthy iff
the success rate is at least 80% and neither critical check
(`dns_resolution`, `service_discovery`) has status failed; degraded iff
not healthy and the rate is at least 50%; unhealthy otherwise. With 3 of
4 checks succeeding and the failing check non-critical the verdict is
degraded (75%), at exactly 2 of 4 (50%) still degraded, and below 50%
unhealthy. -/
theorem connectivity_overall_status (t : ConnTests) :
    ((assessOverallStatus (testsList t)).status = "healthy" ↔
      (80 ≤ (assessOverallStatus (testsList t)).successRate ∧
        t.dnsResolution ≠ TestStatus.failed ∧ t.serviceDiscovery ≠ TestStatus.failed)) ∧
    ((assessOverallStatus (testsList t)).status = "degraded" ↔
      (¬(80 ≤ (assessOverallStatus (testsList t)).successRate ∧
          t.dnsResolution ≠ TestStatus.failed ∧ t.serviceDiscovery ≠ TestStatus.failed) ∧
        50 ≤ (assessOverallStatus (testsList t)).successRate)) ∧
    ((assessOverallStatus (testsList t)).status = "unhealthy" ↔
      (¬(80 ≤ (assessOverallStatus (testsList t)).successRate ∧
          t.dnsResolution ≠ TestStatus.failed ∧ t.serviceDiscovery ≠ TestStatus.failed) ∧
        ¬(50 ≤ (assessOverallStatus (testsList t)).successRate))) ∧
    ((assessOverallStatus (testsList ⟨TestStatus.success, TestStatus.failed,
        some TestStatus.success, TestStatus.success⟩)).status = "degraded" ∧
      (assessOverallStatus (testsList ⟨TestStatus.success, TestStatus.failed,
        some TestStatus.success, TestStatus.success⟩)).successRate = 75) ∧
    ((assessOverallStatus (testsList ⟨TestStatus.success, TestStatus.failed,
        some TestStatus.failed, TestStatus.success⟩)).status = "degraded" ∧
      (assessOverallStatus (testsList ⟨TestStatus.success, TestStatus.failed,
        some TestStatus.failed, TestStatus.success⟩)).successRate = 50) ∧
    ((assessOverallStatus (testsList ⟨TestStatus.success, TestStatus.failed,
        some TestStatus.failed, TestStatus.failed⟩)).status = "unhealthy" ∧
      (assessOverallStatus (testsList ⟨TestStatus.success, TestStatus.failed,
        some TestStatus.failed, TestStatus.failed⟩)).successRate = 25) := by
  have key : ∀ u : ConnTests,
      ((assessOverallStatus (testsList u)).status = "healthy" ↔
        (80 ≤ (assessOverallStatus (testsList u)).successRate ∧
          u.dnsResolution ≠ TestStatus.failed ∧ u.serviceDiscovery ≠ TestStatus.failed)) ∧
      ((assessOverallStatus (testsList u)).status = "degraded" ↔
        (¬(80 ≤ (assessOverallStatus (testsList u)).successRate ∧
            u.dnsResolution ≠ TestStatus.failed ∧ u.serviceDiscovery ≠ TestStatus.failed) ∧
          50 ≤ (assessOverallStatus (testsList u)).successRate)) ∧
      ((assessOverallStatus (testsList u)).status = "unhealthy" ↔
        (¬(80 ≤ (assessOverallStatus (testsList u)).successRate ∧
            u.dnsResolution ≠ TestStatus.failed ∧ u.serviceDiscovery ≠ TestStatus.failed) ∧
          ¬(50 ≤ (assessOverallStatus (testsList u)).successRate))) := by
    intro u
    obtain ⟨dns, port, http, disc⟩ := u
    rcases http with _ | s <;> cases dns <;> cases port <;> cases disc <;> try cases s
    all_goals norm_num +decide [assessOverallStatus, testsList]
  obtain ⟨k1, k2, k3⟩ := key t
  refine ⟨k1, k2, k3, ?_, ?_, ?_⟩ <;>
    exact ⟨by norm_num +decide [assessOverallStatus, testsList],
      by norm_num +decide [assessOverallStatus, testsList]⟩

/-- C5 witness: the spec's scenario — 3 of 4 checks succeed and the
failing check is not critical — yields the degraded verdict. -/
theorem connectivity_overall_status_witness :
    (assessOverallStatus (testsList ⟨TestStatus.success, TestStatus.failed,
      some TestStatus.success, TestStatus.success⟩)).status = "degraded" :=
  (connectivity_overall_status ⟨TestStatus.success, TestStatus.failed,
    some TestStatus.success, TestStatus.success⟩).2.2.2.1.1

/-- C6: the deployment-risk level is never "medium": the `> 5` assignment
is always overridden by the later `> 3` assignment, so the level is
"high" iff more than 3 deployment commits are in the window and "low"
otherwise, with the fixed recommendation text attached per level. -/
theorem deployment_risk_levels (deploymentCommits : List String) (totalCommits : Nat) :
    ((assessDeploymentRisk deploymentCommits totalCommits).level = "high" ↔
      deploymentCommits.length > 3) ∧
    ((assessDeploymentRisk deploymentCommits totalCommits).level = "low" ↔
      ¬(deploymentCommits.length > 3)) ∧
    (assessDeploymentRisk deploymentCommits totalCommits).level ≠ "medium" ∧
    (deploymentCommits.length > 3 →
      (assessDeploymentRisk deploymentCommits totalCommits).recommendation =
        "High deployment activity detected. Consider investigating recent changes for correlation with production issues.") ∧
    (¬(deploymentCommits.length > 3) →
      (assessDeploymentRisk deploymentCommits totalCommits).recommendation =
        "Low deployment risk. Recent code changes less likely to be the primary cause.") := by
  unfold assessDeploymentRisk getRiskRecommendation
  dsimp only
  split_ifs <;> simp_all <;> omega

/-- C6 witness: with 4 deployment commits the level is "high" and carries
the high-risk recommendation; with 2 it is "low". -/
theorem deployment_risk_levels_witness :
    (assessDeploymentRisk ["c1", "c2", "c3", "c4"] 9).level = "high" ∧
    (assessDeploymentRisk ["c1", "c2", "c3", "c4"] 9).recommendation =
      "High deployment activity detected. Consider investigating recent changes for correlation with production issues." ∧
    (assessDeploymentRisk ["c1", "c2"] 9).level = "low" := by
  refine ⟨?_, ?_, ?_⟩
  · exact (deployment_risk_levels ["c1", "c2", "c3", "c4"] 9).1.mpr (by decide)
  · exact (deployment_risk_levels ["c1", "c2", "c3", "c4"] 9).2.2.2.1 (by decide)
  · exact (deployment_risk_levels ["c1", "c2"] 9).2.1.mpr (by decide)

/-- The bucket's event list inside `critical_issues`. -/
def bucketListOf (ci : CriticalIssues) : Bucket → List EventData
  | Bucket.oomKilled => ci.oomKilled
  | Bucket.probeFailures => ci.probeFailures
  | Bucket.imagePullErrors => ci.imagePullErrors
  | Bucket.networkingIssues => ci.networkingIssues
  | Bucket.restartLoops => ci.restartLoops

/-- A Warning event with an image-pull failure reason, matching a service
named "payment". -/
def imagePullEvent : K8sEvent :=
  ⟨some "2024-01-01T00:00:00Z", some "Warning", some "ErrImagePull",
   some "failed to pull image", some "payment-abc"⟩

/-- C7 counterexample: the triage output does not carry a has-issue
boolean for every bucket — with one Warning image-pull event the
image-pull bucket is nonempty yet the `critical_summary` dict has no
boolean for it (it only carries `has_oom_issues`, `has_probe_issues` and
`has_network_issues`). -/
theorem filter_events_claim_counterexample :
    (filterEventItems [imagePullEvent] "payment").criticalIssues.imagePullErrors.length = 1 ∧
    summaryHasIssue (filterEventItems [imagePullEvent] "payment").criticalSummary
      Bucket.imagePullErrors = none := by
  exact ⟨by decide, by decide⟩

/-- C7 (amended): triage assigns each event to at most one bucket via the
ordered case-insensitive first-match chain ("oomkilled" in the reason
gives resource exhaustion; otherwise "probe failed" in the message or
"unhealthy" in the reason gives probe failure); only Warning events are
eligible, normal-severity events are recorded in the event list but never
bucketed; the output carries the per-bucket event lists, the total
critical count, and has-issue booleans for the oom, probe-failure and
networking buckets only. -/
theorem filter_events_triage (items : List K8sEvent) (serviceName : String) :
    (∀ (e : K8sEvent) (b b' : Bucket),
      classifyBucket e = some b → classifyBucket e = some b' → b = b') ∧
    (∀ e : K8sEvent, e.type.getD "" ≠ "Warning" → classifyBucket e = none) ∧
    (∀ x : EventData, x ∈ (filterEventItems items serviceName).events ↔
      ∃ e, e ∈ items.drop (items.length - 20) ∧ eventSelected serviceName e = true ∧
        eventDataOf e = x) ∧
    (∀ (b : Bucket) (x : EventData),
      x ∈ bucketListOf (filterEventItems items serviceName).criticalIssues b ↔
      ∃ e, e ∈ items.drop (items.length - 20) ∧ eventSelected serviceName e = true ∧
        classifyBucket e = some b ∧ eventDataOf e = x) ∧
    (∀ e : K8sEvent, e.type.getD "" = "Warning" →
      strContainsSub "oomkilled" (pyLower (e.reason.getD "")) = true →
      classifyBucket e = some Bucket.oomKilled) ∧
    (∀ e : K8sEvent, e.type.getD "" = "Warning" →
      strContainsSub "oomkilled" (pyLower (e.reason.getD "")) = false →
      (strContainsSub "probe failed" (pyLower (e.message.getD "")) = true ∨
        strContainsSub "unhealthy" (pyLower (e.reason.getD "")) = true) →
      classifyBucket e = some Bucket.probeFailures) ∧
    ((filterEventItems items serviceName).criticalSummary.totalCritical =
      (filterEventItems items serviceName).criticalIssues.oomKilled.length +
      (filterEventItems items serviceName).criticalIssues.probeFailures.length +
      (filterEventItems items serviceName).criticalIssues.imagePullErrors.length +
      (filterEventItems items serviceName).criticalIssues.networkingIssues.length +
      (filterEventItems items serviceName).criticalIssues.restartLoops.length) ∧
    (∀ b : Bucket,
      (summaryHasIssue (filterEventItems items serviceName).criticalSummary b).isSome ↔
      (b = Bucket.oomKilled ∨ b = Bucket.probeFailures ∨ b = Bucket.networkingIssues)) ∧
    ((filterEventItems items serviceName).criticalSummary.hasOomIssues = true ↔
      0 < (filterEventItems items serviceName).criticalIssues.oomKilled.length) ∧
    ((filterEventItems items serviceName).criticalSummary.hasProbeIssues = true ↔
      0 < (filterEventItems items serviceName).criticalIssues.probeFailures.length) ∧
    ((filterEventItems items serviceName).criticalSummary.hasNetworkIssues = true ↔
      0 < (filterEventItems items serviceName).criticalIssues.networkingIssues.length) := by
  refine ⟨?_, ?_, ?_, ?_, ?_, ?_, rfl, ?_, ?_, ?_, ?_⟩
  · intro e b b' h h'
    rw [h] at h'
    exact Option.some.inj h'
  · intro e h
    unfold classifyBucket
    dsimp only
    rw [if_neg h]
  · intro x
    simp [filterEventItems, List.mem_map, List.mem_filter, and_assoc]
  · intro b x
    cases b <;>
      simp [filterEventItems, bucketListOf, bucketEvents, List.mem_map, List.mem_filter,
        and_assoc] <;>
      tauto
  · intro e hw hoom
    unfold classifyBucket
    dsimp only
    rw [if_pos hw, if_pos hoom]
  · intro e hw hoom hpr
    unfold classifyBucket
    dsimp only
    rw [if_pos hw, if_neg (by simp [hoom])]
    rw [if_pos (by rcases hpr with h | h <;> simp [h])]
  · intro b
    cases b <;> simp [summaryHasIssue]
  · simp [filterEventItems]
  · simp [filterEventItems]
  · simp [filterEventItems]

/-- A Normal-severity event naming the service "payment". -/
def normalEvent : K8sEvent :=
  ⟨some "2024-01-01T00:00:00Z", some "Normal", some "Scheduled",
   some "Successfully assigned pod", some "payment-xyz"⟩

/-- C7 witness: a Normal-severity event is recorded in the event list but
classified into no bucket, and a Warning OOMKilled event goes to the
resource-exhaustion bucket. -/
theorem filter_events_triage_witness :
    classifyBucket normalEvent = none ∧
    (eventDataOf normalEvent ∈ (filterEventItems [normalEvent] "payment").events) ∧
    classifyBucket ⟨some "t", some "Warning", some "OOMKilled", some "container killed",
      some "payment-1"⟩ = some Bucket.oomKilled := by
  have h := filter_events_triage [normalEvent] "payment"
  refine ⟨h.2.1 normalEvent (by decide), ?_, ?_⟩
  · exact (h.2.2.1 (eventDataOf normalEvent)).mpr ⟨normalEvent, by decide, by decide, rfl⟩
  · exact h.2.2.2.2.1 ⟨some "t", some "Warning", some "OOMKilled", some "container killed",
      some "payment-1"⟩ (by decide) (by decide)

/-- C9: contrary to the claim, not every external invocation carries an
explicit timeout — the kubectl subprocess behind `KubectlTool.execute`
and the DNS-resolution subprocess of the connectivity probe are awaited
with no timeout at all, while the Prometheus HTTP query does carry a
60-second client timeout. -/
theorem external_invocation_timeouts :
    (kubectlExecuteSubprocess "get pods" "default" "text" "").timeoutSeconds = none ∧
    (kubectlExecuteSubprocess "get pods" "default" "text" "").argv =
      ["kubectl", "get", "pods"] ∧
    (dnsResolutionSubprocess "cart" "otel-demo").timeoutSeconds = none ∧
    (prometheusQueryHttp "http://prometheus:9090/api/v1/query").timeoutSeconds = some 60 := by
  refine ⟨rfl, by decide, rfl, rfl⟩

end FixGPT
